import Mathlib

/-!
Verification of the SIM900/SIM-device serial controller (sim900.py,
simdev.py, simframe.py, simmodule.py) against its design specification.

Strings are embedded as `List Char`; Python slicing `msg[a:b]` becomes
`(msg.drop a).take (b - a)`; a Python function that can raise an exception
is embedded with an `Option` result, `none` marking the raised exception.
Mutable objects (the SIM900 frame, a module, the sorter's local state)
become explicit state records threaded through the operations.
-/

/-- Python `str.rstrip()`: remove trailing whitespace characters. -/
def rstrip (l : List Char) : List Char :=
  (l.reverse.dropWhile (fun c => c.isWhitespace)).reverse

/-- Python `int(s)` as called on the slices of this code base (length at most
one): succeeds exactly on a non-empty all-digit string, otherwise raises
`ValueError` (embedded as `none`). -/
def py_int (s : List Char) : Option Int :=
  if s ≠ [] ∧ s.all (fun c => c.isDigit) then
    some (Int.ofNat (s.foldl (fun a c => 10 * a + (c.toNat - 48)) 0))
  else none

/-- Decimal digits of `n`, fuel-driven so that the kernel evaluates it. -/
def natStrAux : Nat → Nat → List Char
  | 0, _ => []
  | fuel + 1, n =>
    if n < 10 then [Nat.digitChar n]
    else natStrAux fuel (n / 10) ++ [Nat.digitChar (n % 10)]

/-- Python `str(n)` for an integer `n`. -/
def intStr (n : Int) : List Char :=
  if n < 0 then '-' :: natStrAux (n.natAbs + 1) n.natAbs
  else natStrAux (n.natAbs + 1) n.natAbs

/-- A Python value that may appear in the `literal` field of `makecmd`
(the call sites pass either a string such as `LF` or a number such as `0`). -/
inductive PyVal where
  | str (s : List Char)
  | int (n : Int)
deriving DecidableEq

/-- Python `str(v)`. -/
def PyVal.pystr : PyVal → List Char
  | .str s => s
  | .int n => intStr n

/-- Python truthiness of a `PyVal`: a number is truthy iff non-zero, a
string iff non-empty. -/
def PyVal.truthy : PyVal → Bool
  | .str s => !s.isEmpty
  | .int n => n != 0

/-- Python truthiness of the optional `port` argument (`if port:`):
`None` and `0` are falsy. -/
def pyTruthyPort : Option Int → Bool
  | none => false
  | some p => p != 0

/-- Python truthiness of the optional `literal` argument. -/
def pyTruthyOpt : Option PyVal → Bool
  | none => false
  | some v => v.truthy

/-- Python truthiness of the optional `str_block` argument (a string). -/
def pyTruthyStr : Option (List Char) → Bool
  | none => false
  | some s => !s.isEmpty

/-- `makecmd` from sim900.py lines 33-61 (identical to
`SIMFrame.mkcmd` in simframe.py lines 70-99 and `SIMserial.makecmd` in
simdev.py lines 94-123).  Builds the command string by the source's
sequence of conditional appends; `port` is appended only when truthy
(`if port:`), the other three fields whenever present (`is not None`),
with a comma separator when the source's truthiness test of the earlier
fields succeeds and a space otherwise. -/
def makecmd (command : List Char) (port : Option Int := none)
    (str_block : Option (List Char) := none) (literal : Option PyVal := none)
    (num : Option Int := none) : List Char :=
  let message := command
  let message :=
    match port with
    | some p => if p != 0 then message ++ ' ' :: intStr p else message
    | none => message
  let message :=
    match literal with
    | some l => message ++ (if pyTruthyPort port then [','] else [' ']) ++ l.pystr
    | none => message
  let message :=
    match str_block with
    | some s =>
      message ++ (if pyTruthyPort port || pyTruthyOpt literal then [','] else [' '])
        ++ '\'' :: (s ++ ['\''])
    | none => message
  match num with
  | some n =>
    message ++ (if pyTruthyPort port || pyTruthyStr str_block || pyTruthyOpt literal
      then [','] else [' ']) ++ intStr n
  | none => message

/-- `parse_retstr` from sim900.py lines 63-72 (= simdev.py lines 26-35):
the slice `msg[msg_start:]` for a non-negative start index.  The source's
`except IndexError` handler is dead code, since Python slicing never
raises, so the embedding is total. -/
def parse_retstr (msg : List Char) (msg_start : Nat) : List Char :=
  msg.drop msg_start

/-- `parse_portmsg` from sim900.py lines 74-80 (= simdev.py lines 37-43).
Returns `none` when the Python code raises (`int(msg[4:5])` on a frame
prefixed `MSG` whose index-4 character is missing or not a digit);
otherwise `some (originPort, payload)`, with `payload = none` embedding
Python's `None` in the timeout case. -/
def parse_portmsg (msg : List Char) : Option (Int × Option (List Char)) :=
  if msg.take 3 = ['M', 'S', 'G'] then
    match py_int ((msg.drop 4).take 1) with
    | some n => some (n, some (msg.drop 6))
    | none => none
  else if msg.length ≠ 0 then some (0, some msg)
  else some (-1, none)

/-- The literal sentinel pushed on a reassembly failure (sim900.py line 377). -/
def INVALID : List Char := ['I', 'N', 'V', 'A', 'L', 'I', 'D']

/-- The escape string `ESCSTR = 'xyz'` from simutil.py. -/
def ESCSTR : List Char := ['x', 'y', 'z']

/-- Configuration of the sorter (sim900.py `SIM900`): the streaming command
`s_command = [port, cmd, msg_start, msglen]` (the command string itself is
not read by the sorter and is omitted), and the polling command dictionary
`ns_commands = {port: [cmd, msg_start, msglen]}` embedded as an association
list `port ↦ (msg_start, msglen)`. -/
structure SorterCfg where
  s_port : Int
  s_start : Nat
  s_len : Nat
  ns_commands : List (Int × Nat × Nat)
deriving DecidableEq

/-- Mutable state of `SIM900.sorter` (sim900.py lines 331-385): the local
counters and partial buffers, the Python local `msg` (assigned only in the
streaming branch, read by the mainframe branch at line 356 — `none` while
still unassigned), and the contents pushed so far to the queues
`s_buf`, `ns_buf[0]`, `ns_buf[port]` and the list `main_msg`. -/
structure SorterState where
  ns_recv_count : Nat
  ns_half_buf : Int → List Char
  s_half_buf : List Char
  s_miss_count : Nat
  ns_miss_count : Nat
  msg_var : Option (List Char)
  s_buf : List (Int × List Char)
  ns_buf0 : List Int
  ns_buf : Int → List (List Char)
  main_msg : List (Int × List Char)

/-- Sorter state at loop entry (sim900.py lines 331-341): zero counters and
empty buffers; `msg` is not yet assigned. -/
def sorter_init : SorterState :=
  { ns_recv_count := 0
    ns_half_buf := fun _ => []
    s_half_buf := []
    s_miss_count := 0
    ns_miss_count := 0
    msg_var := none
    s_buf := []
    ns_buf0 := []
    ns_buf := fun _ => []
    main_msg := [] }

/-- Body of the sorter's polling branch (sim900.py lines 366-385) for one
frame already classified to polling port `port` with configuration entry
`(start, msglen)` and `ncmds = len(self.ns_commands)`:
push a full-length payload, buffer a first mismatched fragment, and on a
second fragment push the concatenation or the `INVALID` sentinel, clearing
the buffer; finally advance and wrap the per-cycle counter. -/
def ns_process (st : SorterState) (port : Int) (start msglen : Nat)
    (rm : List Char) (ncmds : Nat) : SorterState :=
  let retstr := parse_retstr rm start
  let st2 :=
    if retstr.length = msglen then
      { st with ns_buf := Function.update st.ns_buf port (st.ns_buf port ++ [retstr]) }
    else if (st.ns_half_buf port).length = 0 then
      { st with ns_half_buf := Function.update st.ns_half_buf port (st.ns_half_buf port ++ retstr) }
    else if (st.ns_half_buf port ++ retstr).length = msglen then
      { st with
          ns_buf := Function.update st.ns_buf port (st.ns_buf port ++ [st.ns_half_buf port ++ retstr])
          ns_half_buf := Function.update st.ns_half_buf port [] }
    else
      { st with
          ns_buf := Function.update st.ns_buf port (st.ns_buf port ++ [INVALID])
          ns_miss_count := st.ns_miss_count + 1
          ns_half_buf := Function.update st.ns_half_buf port [] }
  { st2 with
      ns_recv_count := if st2.ns_recv_count + 1 = ncmds then 0 else st2.ns_recv_count + 1 }

/-- One iteration of the sorter's dispatch on an already-parsed message
(sim900.py lines 345-385).  `none` embeds an uncaught Python exception:
`parse_retstr(None, ...)` when the streaming port equals the timeout
sentinel, the `NameError` on the unassigned local `msg` at line 356, and
the `KeyError` on an unregistered polling port at line 366. -/
def sorter_dispatch (cfg : SorterCfg) (st : SorterState) (currtime : Int)
    (port : Int) (raw_msg : Option (List Char)) : Option SorterState :=
  if port = cfg.s_port then
    match raw_msg with
    | none => none
    | some rm =>
      let msg := parse_retstr rm cfg.s_start
      if msg.length = cfg.s_len then
        some { st with msg_var := some msg, s_buf := st.s_buf ++ [(currtime, msg)] }
      else
        some { st with msg_var := some msg, s_miss_count := st.s_miss_count + 1 }
  else if port = 0 then
    match st.msg_var with
    | none => none
    | some m => some { st with main_msg := st.main_msg ++ [(currtime, m)] }
  else if port = -1 then
    some st
  else
    let st1 :=
      if st.ns_recv_count = 0 then { st with ns_buf0 := st.ns_buf0 ++ [currtime] } else st
    match cfg.ns_commands.lookup port, raw_msg with
    | some (start, msglen), some rm =>
      some (ns_process st1 port start msglen rm cfg.ns_commands.length)
    | _, _ => none

/-- One full sorter iteration on a received frame: `parse_portmsg` then
dispatch (sim900.py line 345). -/
def sorter_step (cfg : SorterCfg) (st : SorterState) (currtime : Int)
    (frame : List Char) : Option SorterState :=
  match parse_portmsg frame with
  | none => none
  | some (port, raw_msg) => sorter_dispatch cfg st currtime port raw_msg

/-- Run the sorter loop over a list of timestamped incoming frames. -/
def sorter_run (cfg : SorterCfg) (st : SorterState) :
    List (Int × List Char) → Option SorterState
  | [] => some st
  | (t, f) :: rest =>
    match sorter_step cfg st t f with
    | none => none
    | some st1 => sorter_run cfg st1 rest

/-- A frame is classified to a polling port when its parsed origin port is
neither the streaming port, nor the mainframe (0), nor the timeout (-1). -/
def classifiedPolling (cfg : SorterCfg) (frame : List Char) : Bool :=
  match parse_portmsg frame with
  | some (port, _) => decide (port ≠ cfg.s_port ∧ port ≠ 0 ∧ port ≠ -1)
  | none => false

/-- State of a `SIM900` mainframe object (simframe.py): the arbiter's
`connected_to` port, the module dictionary `_modules` (outer `none` when the
port is not a key of the dictionary — a lookup there raises `KeyError`;
`some none` when no device is set on the port; `some (some c)` a module
whose `connected` flag is `c`), together with the serial line modelled as
the list of sent messages and the list of incoming lines. -/
structure Sim900State where
  connected_to : Int
  modules : Int → Option (Option Bool)
  sent : List (List Char)
  inbuf : List (List Char)

/-- The `_modules` dictionary as built by the constructor (simframe.py
line 113): keys 1..10, all mapped to `None`. -/
def init_modules : Int → Option (Option Bool) :=
  fun p => if 1 ≤ p ∧ p ≤ 10 then some none else none

namespace SIMFrame

/-- `SIMFrame.mkcmd` (simframe.py lines 70-99): textually identical to
`makecmd` in sim900.py. -/
def mkcmd (command : List Char) (port : Option Int := none)
    (str_block : Option (List Char) := none) (literal : Option PyVal := none)
    (num : Option Int := none) : List Char :=
  makecmd command port str_block literal num

/-- `SIMFrame.send` (simframe.py lines 44-53): append the line terminator
and write to the serial port. -/
def send (st : Sim900State) (message : List Char) : Sim900State :=
  { st with sent := st.sent ++ [message ++ ['\n']] }

/-- `SIMFrame.recv` (simframe.py lines 55-63): read one line (an empty
read on timeout) and strip trailing whitespace. -/
def recv (st : Sim900State) : Sim900State × List Char :=
  match st.inbuf with
  | [] => (st, [])
  | l :: rest => ({ st with inbuf := rest }, rstrip l)

/-- `SIMFrame.query` (simframe.py lines 65-68): send, wait, receive. -/
def query (st : Sim900State) (message : List Char) : Sim900State × List Char :=
  recv (send st message)

end SIMFrame

/-- Result of `SIM900.connect_module`, distinguishing the source's four
exits: returned the module after a fresh `CONN` command; returned the
module idempotently (same port already connected); returned `None` after
the `Already connected to another module` error; returned `None` after the
`No device is connected` error. -/
inductive ConnectOutcome where
  | connected
  | already_same
  | already_other
  | no_device
deriving DecidableEq

namespace SIM900

/-- `SIM900.pconnect` (simframe.py lines 187-189): send
`CONN port,'xyz'` and record the connected port. -/
def pconnect (st : Sim900State) (port : Int) : Sim900State :=
  let st1 := SIMFrame.send st (SIMFrame.mkcmd ['C', 'O', 'N', 'N'] (some port) (some ESCSTR))
  { st1 with connected_to := port }

/-- `SIM900.pdisconnect` (simframe.py lines 191-197): send the escape
string and reset `connected_to` to 0. -/
def pdisconnect (st : Sim900State) : Sim900State :=
  { SIMFrame.send st ESCSTR with connected_to := 0 }

/-- `SIM900.connect_module` (simframe.py lines 136-155).  `none` embeds an
uncaught exception (`KeyError` on a port outside the dictionary, or the
`AttributeError` at line 143 where `self._modules[port].name` is read while
the module on the already-connected port is `None`). -/
def connect_module (st : Sim900State) (port : Int) :
    Option (ConnectOutcome × Sim900State) :=
  if st.connected_to = port then
    match st.modules port with
    | some (some _) => some (ConnectOutcome.already_same, st)
    | _ => none
  else if st.connected_to ≠ port ∧ st.connected_to ≠ 0 then
    some (ConnectOutcome.already_other, st)
  else
    match st.modules port with
    | none => none
    | some none => some (ConnectOutcome.no_device, st)
    | some (some _) =>
      let st1 := pconnect st port
      some (ConnectOutcome.connected,
        { st1 with modules := Function.update st1.modules port (some (some true)) })

end SIM900

/-- State of a `SIMModule` object (simmodule.py): its name and the
`connected` flag. -/
structure SIMModuleSt where
  name : List Char
  connected : Bool
deriving DecidableEq

namespace SIMModule

/-- `SIMModule.send` (simmodule.py lines 43-52): delegate to the frame when
connected, otherwise print an error and do nothing. -/
def send (m : SIMModuleSt) (fr : Sim900State) (message : List Char) :
    SIMModuleSt × Sim900State :=
  if m.connected then (m, SIMFrame.send fr message) else (m, fr)

/-- `SIMModule.recv` (simmodule.py lines 54-62): delegate to the frame when
connected, otherwise print an error and return `None`. -/
def recv (m : SIMModuleSt) (fr : Sim900State) :
    (SIMModuleSt × Sim900State) × Option (List Char) :=
  if m.connected then
    let r := SIMFrame.recv fr
    ((m, r.1), some r.2)
  else ((m, fr), none)

/-- `SIMModule.query` (simmodule.py lines 64-68): delegate to the frame when
connected, otherwise print an error and return `None`. -/
def query (m : SIMModuleSt) (fr : Sim900State) (message : List Char) :
    (SIMModuleSt × Sim900State) × Option (List Char) :=
  if m.connected then
    let r := SIMFrame.query fr message
    ((m, r.1), some r.2)
  else ((m, fr), none)

/-- `SIMModule.release` (simmodule.py lines 70-79): when connected,
disconnect the frame and clear the flag; otherwise only print a message. -/
def release (m : SIMModuleSt) (fr : Sim900State) : SIMModuleSt × Sim900State :=
  if !m.connected then (m, fr)
  else ({ m with connected := false }, SIM900.pdisconnect fr)

end SIMModule

/-- C1: a frame `MSG p,xyz` with `p` a decimal digit decodes to origin port
`p` and the payload after the comma; the empty frame decodes to origin port
-1; a non-empty frame not prefixed `MSG` decodes to origin port 0 with the
whole frame as payload. -/
theorem parse_portmsg_classification (c : Char) (rest s : List Char)
    (hc : c.isDigit = true) (hs : s ≠ []) (hpre : s.take 3 ≠ ['M', 'S', 'G']) :
    parse_portmsg ('M' :: 'S' :: 'G' :: ' ' :: c :: ',' :: rest)
      = some (Int.ofNat (c.toNat - 48), some rest) ∧
    parse_portmsg [] = some (-1, none) ∧
    parse_portmsg s = some (0, some s) := by
  refine ⟨?_, rfl, ?_⟩
  · simp [parse_portmsg, py_int, hc]
  · have hl : s.length ≠ 0 := by simpa [List.length_eq_zero] using hs
    simp [parse_portmsg, hpre, hl]

/-- Witness for C1 at the spec's own example frame. -/
theorem parse_portmsg_classification_witness :
    parse_portmsg ['M', 'S', 'G', ' ', '4', ',', 'x', 'y', 'z']
      = some (Int.ofNat ('4'.toNat - 48), some ['x', 'y', 'z']) ∧
    parse_portmsg [] = some (-1, none) ∧
    parse_portmsg ['a', 'b'] = some (0, some ['a', 'b']) :=
  parse_portmsg_classification '4' ['x', 'y', 'z'] ['a', 'b']
    (by decide) (by decide) (by decide)

/-- C6 counterexample: on the frame `MSGX` the decoder raises `ValueError`
(`int('')`), refuting the claim that no input makes it raise. -/
theorem parse_portmsg_raises_on_msgx :
    parse_portmsg ['M', 'S', 'G', 'X'] = none := by decide

/-- C6 amended: the decoder never raises on a frame whose first three
characters are not `MSG`, and every such non-empty frame degrades to the
unaddressed classification `originPort == 0`; frames prefixed `MSG` whose
index-4 character is missing or not a digit raise `ValueError`. -/
theorem parse_portmsg_total_without_msg_prefix (s : List Char)
    (hpre : s.take 3 ≠ ['M', 'S', 'G']) :
    (parse_portmsg s).isSome = true ∧
    (s ≠ [] → parse_portmsg s = some (0, some s)) := by
  constructor
  · by_cases h : s.length = 0 <;> simp [parse_portmsg, hpre, h]
  · intro hs
    have hl : s.length ≠ 0 := by simpa [List.length_eq_zero] using hs
    simp [parse_portmsg, hpre, hl]

/-- Witness for the amended C6. -/
theorem parse_portmsg_total_without_msg_prefix_witness :
    (parse_portmsg ['M', 'S', 'X']).isSome = true ∧
    (['M', 'S', 'X'] ≠ ([] : List Char) →
      parse_portmsg ['M', 'S', 'X'] = some (0, some ['M', 'S', 'X'])) :=
  parse_portmsg_total_without_msg_prefix ['M', 'S', 'X'] (by decide)

/-- C8: the payload-extraction helper returns the suffix of the frame from
the given offset and returns the empty string whenever the frame is shorter
than the offset; it is total (the source's IndexError handler is dead). -/
theorem parse_retstr_safe (msg : List Char) (msg_start : Nat) :
    parse_retstr msg msg_start = msg.drop msg_start ∧
    (msg.length ≤ msg_start → parse_retstr msg msg_start = []) := by
  refine ⟨rfl, fun h => ?_⟩
  simpa [parse_retstr] using List.drop_eq_nil_of_le h

/-- Witness for C8 on a frame shorter than the offset. -/
theorem parse_retstr_safe_witness : parse_retstr ['a', 'b'] 5 = [] :=
  (parse_retstr_safe ['a', 'b'] 5).2 (by decide)

/-- C9: a zero port encodes exactly like an absent port, for every
combination of the remaining fields. -/
theorem makecmd_port_zero_eq_port_none (command : List Char)
    (str_block : Option (List Char)) (literal : Option PyVal) (num : Option Int) :
    makecmd command (some 0) str_block literal num
      = makecmd command none str_block literal num := by
  simp [makecmd, pyTruthyPort]

/-- Serialized port field: a space then the digits, omitted when the port
is absent or 0. -/
def portPart (port : Option Int) : List Char :=
  match port with
  | some p => if p != 0 then ' ' :: intStr p else []
  | none => []

/-- Serialized literal field with its separator. -/
def literalPart (port : Option Int) (literal : Option PyVal) : List Char :=
  match literal with
  | some l => (if pyTruthyPort port then [','] else [' ']) ++ l.pystr
  | none => []

/-- Serialized quoted string-block field with its separator. -/
def strBlockPart (port : Option Int) (literal : Option PyVal)
    (str_block : Option (List Char)) : List Char :=
  match str_block with
  | some s =>
    (if pyTruthyPort port || pyTruthyOpt literal then [','] else [' '])
      ++ '\'' :: (s ++ ['\''])
  | none => []

/-- Serialized numeric field with its separator. -/
def numPart (port : Option Int) (literal : Option PyVal)
    (str_block : Option (List Char)) (num : Option Int) : List Char :=
  match num with
  | some n =>
    (if pyTruthyPort port || pyTruthyStr str_block || pyTruthyOpt literal
      then [','] else [' ']) ++ intStr n
  | none => []

/-- Modelled from the spec (amended §3 ordering rule): reference
serialization writing the present fields in the fixed order mnemonic, port,
literal, quoted string-block, numeric, where a port of 0 is omitted and the
separator before a present field is a comma exactly when the source's
truthiness test of the earlier fields succeeds (port non-zero for the
literal; port non-zero or literal truthy for the string-block; port
non-zero, string-block non-empty or literal truthy for the numeric),
otherwise a single space. -/
def makecmdSpec (command : List Char) (port : Option Int)
    (str_block : Option (List Char)) (literal : Option PyVal)
    (num : Option Int) : List Char :=
  command ++ portPart port ++ literalPart port literal
    ++ strBlockPart port literal str_block ++ numPart port literal str_block num

/-- C5 counterexample: with a falsy literal (`literal = 0`) and a
string-block present, the encoder separates the two fields with a space,
not the comma the claim requires for every pair of successively present
fields. -/
theorem makecmd_separator_cex :
    makecmd ['C', 'M', 'D'] none (some ['S']) (some (PyVal.int 0)) none
      = ['C', 'M', 'D', ' ', '0', ' ', '\'', 'S', '\''] ∧
    ['C', 'M', 'D', ' ', '0', ' ', '\'', 'S', '\'']
      ≠ ['C', 'M', 'D', ' ', '0', ',', '\'', 'S', '\''] := by
  decide

/-- C5 amended: the encoder equals the reference serialization
`makecmdSpec`, i.e. fields appear in the fixed order mnemonic, port,
literal, quoted string-block, numeric, a port of 0 is omitted, and each
separator is a comma exactly when an earlier truthy field was serialized,
a space otherwise. -/
theorem makecmd_eq_makecmdSpec (command : List Char) (port : Option Int)
    (str_block : Option (List Char)) (literal : Option PyVal) (num : Option Int) :
    makecmd command port str_block literal num
      = makecmdSpec command port str_block literal num := by
  cases port <;> cases literal <;> cases str_block <;> cases num <;>
    simp [makecmd, makecmdSpec, portPart, literalPart, strBlockPart, numPart] <;>
    split_ifs <;> simp

/-- A field suffix of the wire string: empty, or led by its separator. -/
def SepHead (l : List Char) : Prop :=
  l = [] ∨ l.head? = some ' ' ∨ l.head? = some ','

lemma sepHead_append {a b : List Char} (ha : SepHead a) (hb : SepHead b) :
    SepHead (a ++ b) := by
  rcases ha with rfl | h | h
  · simpa using hb
  · cases a with
    | nil => simp at h
    | cons x t => right; left; simpa using h
  · cases a with
    | nil => simp at h
    | cons x t => right; right; simpa using h

lemma portPart_sepHead (port : Option Int) : SepHead (portPart port) := by
  cases port with
  | none => exact Or.inl rfl
  | some p =>
    show SepHead (if p != 0 then ' ' :: intStr p else [])
    split_ifs
    · exact Or.inr (Or.inl rfl)
    · exact Or.inl rfl

lemma literalPart_sepHead (port : Option Int) (literal : Option PyVal) :
    SepHead (literalPart port literal) := by
  cases literal with
  | none => exact Or.inl rfl
  | some l =>
    show SepHead ((if pyTruthyPort port then [','] else [' ']) ++ l.pystr)
    split_ifs
    · exact Or.inr (Or.inr rfl)
    · exact Or.inr (Or.inl rfl)

lemma strBlockPart_sepHead (port : Option Int) (literal : Option PyVal)
    (str_block : Option (List Char)) : SepHead (strBlockPart port literal str_block) := by
  cases str_block with
  | none => exact Or.inl rfl
  | some s =>
    show SepHead ((if pyTruthyPort port || pyTruthyOpt literal then [','] else [' '])
      ++ '\'' :: (s ++ ['\'']))
    split_ifs
    · exact Or.inr (Or.inr rfl)
    · exact Or.inr (Or.inl rfl)

lemma numPart_sepHead (port : Option Int) (literal : Option PyVal)
    (str_block : Option (List Char)) (num : Option Int) :
    SepHead (numPart port literal str_block num) := by
  cases num with
  | none => exact Or.inl rfl
  | some n =>
    show SepHead ((if pyTruthyPort port || pyTruthyStr str_block || pyTruthyOpt literal
      then [','] else [' ']) ++ intStr n)
    split_ifs
    · exact Or.inr (Or.inr rfl)
    · exact Or.inr (Or.inl rfl)

/-- The encoder output is the mnemonic followed by the field suffixes. -/
lemma makecmd_shape (command : List Char) (port : Option Int)
    (str_block : Option (List Char)) (literal : Option PyVal) (num : Option Int) :
    makecmd command port str_block literal num
      = command ++ (portPart port ++ (literalPart port literal
          ++ (strBlockPart port literal str_block
            ++ numPart port literal str_block num))) := by
  cases port <;> cases literal <;> cases str_block <;> cases num <;>
    simp [makecmd, portPart, literalPart, strBlockPart, numPart] <;>
    split_ifs <;> simp

/-- Appending a separator-led suffix to a mnemonic that is not prefixed
`MSG` cannot produce a string prefixed `MSG`. -/
lemma take_three_append_ne_msg (cmd s : List Char) (hne : cmd ≠ [])
    (hpre : cmd.take 3 ≠ ['M', 'S', 'G']) (hs : SepHead s) :
    (cmd ++ s).take 3 ≠ ['M', 'S', 'G'] := by
  match cmd, hne with
  | [a], _ =>
    rcases hs with rfl | h | h
    · simp only [List.append_nil]
      exact hpre
    · cases s with
      | nil => simp at h
      | cons x t =>
        simp only [List.head?_cons, Option.some.injEq] at h
        subst h
        intro hEq
        simp [List.take] at hEq
    · cases s with
      | nil => simp at h
      | cons x t =>
        simp only [List.head?_cons, Option.some.injEq] at h
        subst h
        intro hEq
        simp [List.take] at hEq
  | [a, b], _ =>
    rcases hs with rfl | h | h
    · simp only [List.append_nil]
      exact hpre
    · cases s with
      | nil => simp at h
      | cons x t =>
        simp only [List.head?_cons, Option.some.injEq] at h
        subst h
        intro hEq
        simp [List.take] at hEq
    · cases s with
      | nil => simp at h
      | cons x t =>
        simp only [List.head?_cons, Option.some.injEq] at h
        subst h
        intro hEq
        simp [List.take] at hEq
  | a :: b :: c :: t, _ =>
    intro hEq
    apply hpre
    simpa [List.take] using hEq

/-- C4 counterexample: for the spec `(mnemonic TVAL?, port 4)` the decoder
applied to the encoded wire string classifies it as an unaddressed
mainframe message with origin port 0, not port 4 — the port field is not
recovered. -/
theorem decode_encode_cex :
    parse_portmsg (makecmd ['T', 'V', 'A', 'L', '?'] (some 4))
      = some (0, some ['T', 'V', 'A', 'L', '?', ' ', '4']) ∧ (0 : Int) ≠ 4 := by
  decide

/-- C4 amended: for every CommandSpec whose mnemonic is non-empty and not
prefixed `MSG`, decoding the encoded wire string yields the unaddressed
classification `(0, wire string)`: the whole encoded string round-trips as
the payload, but the individual port/literal/stringBlock/numeric fields are
not separately recovered. -/
theorem decode_encode_unaddressed (command : List Char) (port : Option Int)
    (str_block : Option (List Char)) (literal : Option PyVal) (num : Option Int)
    (hne : command ≠ []) (hpre : command.take 3 ≠ ['M', 'S', 'G']) :
    parse_portmsg (makecmd command port str_block literal num)
      = some (0, some (makecmd command port str_block literal num)) := by
  have hshape := makecmd_shape command port str_block literal num
  have hsep : SepHead (portPart port ++ (literalPart port literal
      ++ (strBlockPart port literal str_block ++ numPart port literal str_block num))) :=
    sepHead_append (portPart_sepHead port)
      (sepHead_append (literalPart_sepHead port literal)
        (sepHead_append (strBlockPart_sepHead port literal str_block)
          (numPart_sepHead port literal str_block num)))
  have h3 : (makecmd command port str_block literal num).take 3 ≠ ['M', 'S', 'G'] := by
    rw [hshape]
    exact take_three_append_ne_msg command _ hne hpre hsep
  have hne2 : makecmd command port str_block literal num ≠ [] := by
    rw [hshape]
    simp [hne]
  have hl : (makecmd command port str_block literal num).length ≠ 0 := by
    simpa [List.length_eq_zero] using hne2
  simp [parse_portmsg, h3, hl]

/-- Witness for the amended C4. -/
theorem decode_encode_unaddressed_witness :
    parse_portmsg (makecmd ['T', 'V', 'A', 'L', '?'] (some 4))
      = some (0, some (makecmd ['T', 'V', 'A', 'L', '?'] (some 4))) :=
  decode_encode_unaddressed ['T', 'V', 'A', 'L', '?'] (some 4) none none none
    (by decide) (by decide)

lemma ns_process_ns_buf (st : SorterState) (port : Int) (start msglen : Nat)
    (rm : List Char) (ncmds : Nat) :
    (ns_process st port start msglen rm ncmds).ns_buf =
      (if (parse_retstr rm start).length = msglen then
        Function.update st.ns_buf port (st.ns_buf port ++ [parse_retstr rm start])
      else if (st.ns_half_buf port).length = 0 then st.ns_buf
      else if (st.ns_half_buf port ++ parse_retstr rm start).length = msglen then
        Function.update st.ns_buf port
          (st.ns_buf port ++ [st.ns_half_buf port ++ parse_retstr rm start])
      else Function.update st.ns_buf port (st.ns_buf port ++ [INVALID])) := by
  dsimp only [ns_process]
  split_ifs <;> rfl

lemma ns_process_ns_half_buf (st : SorterState) (port : Int) (start msglen : Nat)
    (rm : List Char) (ncmds : Nat) :
    (ns_process st port start msglen rm ncmds).ns_half_buf =
      (if (parse_retstr rm start).length = msglen then st.ns_half_buf
      else if (st.ns_half_buf port).length = 0 then
        Function.update st.ns_half_buf port (st.ns_half_buf port ++ parse_retstr rm start)
      else Function.update st.ns_half_buf port []) := by
  dsimp only [ns_process]
  split_ifs <;> rfl

lemma ns_process_ns_recv_count (st : SorterState) (port : Int) (start msglen : Nat)
    (rm : List Char) (ncmds : Nat) :
    (ns_process st port start msglen rm ncmds).ns_recv_count =
      (if st.ns_recv_count + 1 = ncmds then 0 else st.ns_recv_count + 1) := by
  dsimp only [ns_process]
  split_ifs <;> rfl

/-- What the demultiplexer guarantees on one frame classified to a polling
port whose configured expected length is `msglen`: a full-length payload is
pushed directly; a mismatched payload meeting an empty partial buffer is
buffered and nothing is pushed; a mismatched payload meeting a non-empty
partial buffer pushes the concatenation when it reaches the expected
length and the `INVALID` sentinel otherwise, the buffer being cleared in
both cases. -/
def ReassemblyPost (st st' : SorterState) (p : Int) (start msglen : Nat)
    (rm : List Char) : Prop :=
  ((parse_retstr rm start).length = msglen →
    st'.ns_buf p = st.ns_buf p ++ [parse_retstr rm start] ∧
    st'.ns_half_buf p = st.ns_half_buf p) ∧
  ((parse_retstr rm start).length ≠ msglen → st.ns_half_buf p = [] →
    st'.ns_buf p = st.ns_buf p ∧
    st'.ns_half_buf p = parse_retstr rm start) ∧
  ((parse_retstr rm start).length ≠ msglen → st.ns_half_buf p ≠ [] →
    (st.ns_half_buf p ++ parse_retstr rm start).length = msglen →
    st'.ns_buf p = st.ns_buf p ++ [st.ns_half_buf p ++ parse_retstr rm start] ∧
    st'.ns_half_buf p = []) ∧
  ((parse_retstr rm start).length ≠ msglen → st.ns_half_buf p ≠ [] →
    (st.ns_half_buf p ++ parse_retstr rm start).length ≠ msglen →
    st'.ns_buf p = st.ns_buf p ++ [INVALID] ∧
    st'.ns_half_buf p = [])

/-- C2: on every frame classified to a registered polling port the sorter
raises no exception and satisfies the push/buffer/reassemble/INVALID
post-condition `ReassemblyPost`. -/
theorem sorter_reassembly (cfg : SorterCfg) (st : SorterState) (t p : Int)
    (start msglen : Nat) (rm : List Char)
    (hcmd : cfg.ns_commands.lookup p = some (start, msglen))
    (hsp : p ≠ cfg.s_port) (h0 : p ≠ 0) (h1 : p ≠ -1) :
    ∃ st', sorter_dispatch cfg st t p (some rm) = some st' ∧
      ReassemblyPost st st' p start msglen rm := by
  unfold sorter_dispatch
  rw [if_neg hsp, if_neg h0, if_neg h1, hcmd]
  set st1 := if st.ns_recv_count = 0
    then { st with ns_buf0 := st.ns_buf0 ++ [t] } else st with hst1
  have hbuf : st1.ns_buf = st.ns_buf := by
    rw [hst1]; split_ifs <;> rfl
  have hhalf : st1.ns_half_buf = st.ns_half_buf := by
    rw [hst1]; split_ifs <;> rfl
  refine ⟨_, rfl, ?_, ?_, ?_, ?_⟩
  · intro hlen
    constructor
    · rw [ns_process_ns_buf, if_pos hlen, hbuf, Function.update_same]
    · rw [ns_process_ns_half_buf, if_pos hlen, hhalf]
  · intro hlen hemp
    have hz : (st1.ns_half_buf p).length = 0 := by rw [hhalf, hemp]; rfl
    constructor
    · rw [ns_process_ns_buf, if_neg hlen, if_pos hz, hbuf]
    · rw [ns_process_ns_half_buf, if_neg hlen, if_pos hz, hhalf,
        Function.update_same, hemp, List.nil_append]
  · intro hlen hne hfit
    have hz : ¬ (st1.ns_half_buf p).length = 0 := by
      rw [hhalf]
      simpa [List.length_eq_zero] using hne
    constructor
    · rw [ns_process_ns_buf, if_neg hlen, if_neg hz, hhalf, hbuf, if_pos hfit,
        Function.update_same]
    · rw [ns_process_ns_half_buf, if_neg hlen, if_neg hz, Function.update_same]
  · intro hlen hne hfit
    have hz : ¬ (st1.ns_half_buf p).length = 0 := by
      rw [hhalf]
      simpa [List.length_eq_zero] using hne
    constructor
    · rw [ns_process_ns_buf, if_neg hlen, if_neg hz, hhalf, hbuf, if_neg hfit,
        Function.update_same]
    · rw [ns_process_ns_half_buf, if_neg hlen, if_neg hz, Function.update_same]

/-- Example sorter configuration: streaming on port 1, one polling channel
on port 4 with payload offset 2 and expected length 4. -/
def sorterCfgExample : SorterCfg :=
  { s_port := 1, s_start := 4, s_len := 13, ns_commands := [(4, 2, 4)] }

/-- Witness for C2. -/
theorem sorter_reassembly_witness :
    ∃ st', sorter_dispatch sorterCfgExample sorter_init 0 4
        (some ['#', '#', 'A', 'B']) = some st' ∧
      ReassemblyPost sorter_init st' 4 2 4 ['#', '#', 'A', 'B'] :=
  sorter_reassembly sorterCfgExample sorter_init 0 4 2 4 ['#', '#', 'A', 'B']
    (by decide) (by decide) (by decide) (by decide)

lemma sorter_dispatch_count_nonpoll (cfg : SorterCfg) (st : SorterState)
    (t port : Int) (rm : Option (List Char)) (st' : SorterState)
    (h : sorter_dispatch cfg st t port rm = some st')
    (hnp : ¬(port ≠ cfg.s_port ∧ port ≠ 0 ∧ port ≠ -1)) :
    st'.ns_recv_count = st.ns_recv_count := by
  unfold sorter_dispatch at h
  split_ifs at h with h1 h2 h3
  · cases rm with
    | none => cases h
    | some rm =>
      dsimp only at h
      split_ifs at h <;> (cases h; rfl)
  · cases hm : st.msg_var with
    | none => rw [hm] at h; cases h
    | some m => rw [hm] at h; cases h; rfl
  · cases h; rfl
  all_goals exact absurd ⟨h1, h2, h3⟩ hnp

lemma sorter_dispatch_count_poll (cfg : SorterCfg) (st : SorterState)
    (t port : Int) (rm : Option (List Char)) (st' : SorterState)
    (h : sorter_dispatch cfg st t port rm = some st')
    (h1 : port ≠ cfg.s_port) (h2 : port ≠ 0) (h3 : port ≠ -1) :
    cfg.ns_commands ≠ [] ∧
    st'.ns_recv_count = (if st.ns_recv_count + 1 = cfg.ns_commands.length then 0
      else st.ns_recv_count + 1) := by
  unfold sorter_dispatch at h
  rw [if_neg h1, if_neg h2, if_neg h3] at h
  cases hl : cfg.ns_commands.lookup port with
  | none => rw [hl] at h; cases rm <;> (dsimp only at h; cases h)
  | some e =>
    obtain ⟨start, msglen⟩ := e
    cases rm with
    | none => rw [hl] at h; dsimp only at h; cases h
    | some rm =>
      rw [hl] at h
      dsimp only at h
      cases h
      constructor
      · intro hnil
        rw [hnil] at hl
        cases hl
      · rw [ns_process_ns_recv_count]
        have h4 : (if st.ns_recv_count = 0
            then { st with ns_buf0 := st.ns_buf0 ++ [t] } else st).ns_recv_count
            = st.ns_recv_count := by
          split_ifs <;> rfl
        rw [h4]

lemma sorter_run_count_aux (cfg : SorterCfg) :
    ∀ (inputs : List (Int × List Char)) (st st' : SorterState),
      st.ns_recv_count % cfg.ns_commands.length = st.ns_recv_count →
      sorter_run cfg st inputs = some st' →
      st'.ns_recv_count
        = (st.ns_recv_count + inputs.countP (fun tf => classifiedPolling cfg tf.2))
            % cfg.ns_commands.length := by
  intro inputs
  induction inputs with
  | nil =>
    intro st st' hinv h
    cases h
    simpa using hinv.symm
  | cons tf rest ih =>
    intro st st' hinv h
    obtain ⟨t, f⟩ := tf
    unfold sorter_run at h
    cases hstep : sorter_step cfg st t f with
    | none => rw [hstep] at h; cases h
    | some st1 =>
      rw [hstep] at h
      dsimp only at h
      unfold sorter_step at hstep
      cases hp : parse_portmsg f with
      | none => rw [hp] at hstep; cases hstep
      | some pr =>
        obtain ⟨port, rmm⟩ := pr
        rw [hp] at hstep
        dsimp only at hstep
        by_cases hpol : port ≠ cfg.s_port ∧ port ≠ 0 ∧ port ≠ -1
        · obtain ⟨hnem, hcount⟩ :=
            sorter_dispatch_count_poll cfg st t port rmm st1 hstep hpol.1 hpol.2.1 hpol.2.2
          have hN : 0 < cfg.ns_commands.length := List.length_pos.mpr hnem
          have hlt : st.ns_recv_count < cfg.ns_commands.length :=
            hinv ▸ Nat.mod_lt _ hN
          have hc1 : st1.ns_recv_count = (st.ns_recv_count + 1) % cfg.ns_commands.length := by
            rw [hcount]
            rcases Nat.lt_or_ge (st.ns_recv_count + 1) cfg.ns_commands.length with hx | hx
            · rw [if_neg (Nat.ne_of_lt hx), Nat.mod_eq_of_lt hx]
            · have hEq : st.ns_recv_count + 1 = cfg.ns_commands.length :=
                le_antisymm (by omega) hx
              rw [if_pos hEq, hEq, Nat.mod_self]
          have hinv1 : st1.ns_recv_count % cfg.ns_commands.length = st1.ns_recv_count := by
            rw [hc1]
            exact Nat.mod_mod_of_dvd _ dvd_rfl
          have hrec := ih st1 st' hinv1 h
          have hcl : classifiedPolling cfg f = true := by
            unfold classifiedPolling
            rw [hp]
            exact decide_eq_true hpol
          rw [hrec, hc1, List.countP_cons, hcl, Nat.mod_add_mod]
          simp only [if_true]
          congr 1
          omega
        · have hcount := sorter_dispatch_count_nonpoll cfg st t port rmm st1 hstep hpol
          have hinv1 : st1.ns_recv_count % cfg.ns_commands.length = st1.ns_recv_count := by
            rw [hcount]; exact hinv
          have hrec := ih st1 st' hinv1 h
          have hcl : classifiedPolling cfg f = false := by
            unfold classifiedPolling
            rw [hp]
            exact decide_eq_false hpol
          rw [hrec, hcount, List.countP_cons, hcl]
          simp

/-- C7: the per-cycle completion counter starts at 0 and, over any
successful run of the sorter on any sequence of frames, ends at the number
of frames classified to polling ports modulo the number of registered
polling channels: it is incremented once per polling-classified frame in
any arrival order and returns to zero exactly each time it reaches that
number. -/
theorem sorter_counter_cycle (cfg : SorterCfg) (inputs : List (Int × List Char))
    (h : (sorter_run cfg sorter_init inputs).isSome = true) :
    sorter_init.ns_recv_count = 0 ∧
    Option.map (fun s => s.ns_recv_count) (sorter_run cfg sorter_init inputs)
      = some ((inputs.countP fun tf => classifiedPolling cfg tf.2)
          % cfg.ns_commands.length) := by
  refine ⟨rfl, ?_⟩
  obtain ⟨st', hrun⟩ := Option.isSome_iff_exists.mp h
  have hfin := sorter_run_count_aux cfg inputs sorter_init st' (by simp [sorter_init]) hrun
  rw [hrun, Option.map_some', hfin]
  simp [sorter_init]

/-- Example sorter configuration with two polling channels on ports 4 and 5. -/
def sorterCfgTwo : SorterCfg :=
  { s_port := 1, s_start := 4, s_len := 2, ns_commands := [(4, 0, 2), (5, 0, 2)] }

/-- Example frame sequence: three addressed polling responses. -/
def sorterInputsExample : List (Int × List Char) :=
  [(0, ['M', 'S', 'G', ' ', '4', ',', 'a', 'b']),
   (1, ['M', 'S', 'G', ' ', '5', ',', 'c', 'd']),
   (2, ['M', 'S', 'G', ' ', '4', ',', 'e', 'f'])]

/-- Witness for C7: three polling responses against two registered
channels leave the counter at 3 mod 2. -/
theorem sorter_counter_cycle_witness :
    sorter_init.ns_recv_count = 0 ∧
    Option.map (fun s => s.ns_recv_count)
        (sorter_run sorterCfgTwo sorter_init sorterInputsExample)
      = some ((sorterInputsExample.countP
            fun tf => classifiedPolling sorterCfgTwo tf.2)
          % sorterCfgTwo.ns_commands.length) :=
  sorter_counter_cycle sorterCfgTwo sorterInputsExample (by decide)

/-- C3: the arbiter's connect operation refuses a second connection with
the named already-connected error and leaves the state untouched; a
reconnection of the already-connected port succeeds idempotently with no
command sent; a fresh connection with a module present sends the `CONN`
command and records the connected port. -/
theorem connect_module_spec (st : Sim900State) (p : Int) :
    (st.connected_to ≠ p → st.connected_to ≠ 0 →
      SIM900.connect_module st p = some (ConnectOutcome.already_other, st)) ∧
    (st.connected_to = p → (∃ c, st.modules p = some (some c)) →
      SIM900.connect_module st p = some (ConnectOutcome.already_same, st)) ∧
    (st.connected_to = 0 → p ≠ 0 → ∀ c, st.modules p = some (some c) →
      SIM900.connect_module st p = some (ConnectOutcome.connected,
        { connected_to := p,
          modules := Function.update st.modules p (some (some true)),
          sent := st.sent
            ++ [SIMFrame.mkcmd ['C', 'O', 'N', 'N'] (some p) (some ESCSTR) ++ ['\n']],
          inbuf := st.inbuf })) := by
  refine ⟨?_, ?_, ?_⟩
  · intro hne h0
    unfold SIM900.connect_module
    rw [if_neg hne, if_pos ⟨hne, h0⟩]
  · rintro hEq ⟨c, hc⟩
    unfold SIM900.connect_module
    rw [if_pos hEq, hc]
  · intro h0 hp c hc
    unfold SIM900.connect_module
    have hne : ¬ st.connected_to = p := by
      rw [h0]
      exact fun h => hp h.symm
    rw [if_neg hne, if_neg (fun hh => hh.2 h0), hc]
    rfl

/-- Example frame state: a module on port 5 is present and connected. -/
def frameStateExample : Sim900State :=
  { connected_to := 5
    modules := Function.update init_modules 5 (some (some true))
    sent := []
    inbuf := [] }

/-- Witness for C3: connecting port 6 while port 5 holds the line is
refused and mutates nothing. -/
theorem connect_module_spec_witness :
    SIM900.connect_module frameStateExample 6
      = some (ConnectOutcome.already_other, frameStateExample) :=
  (connect_module_spec frameStateExample 6).1 (by decide) (by decide)

/-- C10: a module whose connected flag is cleared performs no transport
operation — send, recv and query leave the frame untouched and return
`None`, and release changes neither the flag nor the frame's connection
state; a module whose flag is set delegates each operation to the frame. -/
theorem simmodule_guard (m : SIMModuleSt) (fr : Sim900State) (message : List Char) :
    (m.connected = false →
      SIMModule.send m fr message = (m, fr) ∧
      SIMModule.recv m fr = ((m, fr), none) ∧
      SIMModule.query m fr message = ((m, fr), none) ∧
      SIMModule.release m fr = (m, fr)) ∧
    (m.connected = true →
      SIMModule.send m fr message = (m, SIMFrame.send fr message) ∧
      SIMModule.recv m fr = ((m, (SIMFrame.recv fr).1), some (SIMFrame.recv fr).2) ∧
      SIMModule.query m fr message
        = ((m, (SIMFrame.query fr message).1), some (SIMFrame.query fr message).2) ∧
      SIMModule.release m fr
        = ({ m with connected := false }, SIM900.pdisconnect fr)) := by
  constructor
  · intro hc
    refine ⟨?_, ?_, ?_, ?_⟩ <;>
      simp [SIMModule.send, SIMModule.recv, SIMModule.query, SIMModule.release, hc]
  · intro hc
    refine ⟨?_, ?_, ?_, ?_⟩ <;>
      simp [SIMModule.send, SIMModule.recv, SIMModule.query, SIMModule.release, hc]

/-- Example module object with its connected flag cleared. -/
def moduleStExample : SIMModuleSt := { name := ['t'], connected := false }

/-- Witness for C10 on a disconnected module. -/
theorem simmodule_guard_witness :
    SIMModule.send moduleStExample frameStateExample [] = (moduleStExample, frameStateExample) ∧
    SIMModule.recv moduleStExample frameStateExample = ((moduleStExample, frameStateExample), none) ∧
    SIMModule.query moduleStExample frameStateExample []
      = ((moduleStExample, frameStateExample), none) ∧
    SIMModule.release moduleStExample frameStateExample
      = (moduleStExample, frameStateExample) :=
  (simmodule_guard moduleStExample frameStateExample []).1 rfl
